import Mathlib

/-!
Shallow embedding of the Weitai (Equil/MicroTech) USB insulin-pump driver
(`src/lib/drivers/weitai/weiTaiUSB.js`): the frame codec, packet
builder/parser, the 28-byte history-record decoder (`parsePayload`), the
delivery-reconstruction functions (`buildBasal`, `buildBolus` and friends,
`buildValue`), the settings enumerator (`getConfig`/`getSetting`), and the
basal filtering in `processData`.

Numbers are embedded as `Nat`/`Int` (byte values are naturals, JavaScript
number arithmetic on integral values is exact in the modelled ranges);
floating-point delivery amounts are embedded as exact rationals `ℚ`
(the JavaScript arithmetic modelled — products and quotients of small
decimal values — is treated at its exact mathematical value).
Buffers are `List Nat` of byte values.

The helper module `utils.js` (`cRC8`, `packFrame`, `unpackFrame`,
`uintFromArrayBuffer`, `formatString`, `uint8ArrayToString`) and the node
`crypto` MD5 digest are not among the provided sources; those definitions
are modelled from the spec and marked as such in their doc comments.
-/

set_option maxRecDepth 8000

/-- Decidable equality of `Except` results (used to evaluate the decoder
on concrete inputs). -/
instance {e a : Type} [DecidableEq e] [DecidableEq a] : DecidableEq (Except e a) := fun x y =>
  match x, y with
  | .error u, .error v =>
    if h : u = v then .isTrue (by rw [h]) else .isFalse (fun hh => h (Except.error.inj hh))
  | .ok u, .ok v =>
    if h : u = v then .isTrue (by rw [h]) else .isFalse (fun hh => h (Except.ok.inj hh))
  | .error _, .ok _ => .isFalse (fun hh => Except.noConfusion hh)
  | .ok _, .error _ => .isFalse (fun hh => Except.noConfusion hh)

/-- Floor of a rational, as the source's `Math.floor` (computable form;
`qfloor_eq_floor` below links it to Mathlib's `Int.floor`). -/
def qfloor (x : ℚ) : ℤ := x.num / (x.den : ℤ)

/-- Truncation of a rational toward zero, as JavaScript's decimal-string
truncation in `formatDecimal` behaves on exact decimal values. -/
def qtrunc (x : ℚ) : ℤ := if 0 ≤ x then qfloor x else -qfloor (-x)

theorem qfloor_eq_floor (x : ℚ) : qfloor x = ⌊x⌋ := (Rat.floor_def).symm

/-- Little-endian unsigned integer of a byte list (`uintFromArrayBuffer`
with `littleEndian = true`; modelled from the spec: little-endian
multi-byte integers throughout). -/
def uintLE : List Nat → Nat
  | [] => 0
  | b :: rest => b + 256 * uintLE rest

/-- The four little-endian bytes of a 32-bit word (`writeUInt32LE`). -/
def bytesOfWord (w : Nat) : List Nat :=
  [w % 256, w / 256 % 256, w / 65536 % 256, w / 16777216 % 256]

/-- Signed 32-bit little-endian read (`Buffer.readInt32LE`). -/
def readInt32LE (l : List Nat) : Int :=
  let u := uintLE (l.take 4)
  if u < 2147483648 then (u : Int) else (u : Int) - 4294967296

/-- One CRC-8 shift step (polynomial 0x07, most-significant bit first). -/
def crc8Round (acc : Nat) : Nat :=
  if acc / 128 % 2 = 1 then ((acc * 2) ^^^ 7) % 256 else (acc * 2) % 256

/-- Modelled from the spec: `cRC8` from the missing `utils.js` — an 8-bit
CRC over a byte sequence with polynomial and initial value fixed by the
device protocol. The concrete polynomial (0x07, initial value 0) stands
in for the device constant; no claim below depends on which CRC-8
variant is used, only that builder and parser use the same function. -/
def cRC8 (bytes : List Nat) : Nat :=
  bytes.foldl (fun a b => crc8Round^[8] (a ^^^ b % 256)) 0

/-- One mixing fold used by the digest stand-in. -/
def md5Mix (seed : Nat) (p : List Nat) : Nat :=
  p.foldl (fun a b => (a * 131 + b + 1) % 4294967296) seed

/-- Modelled from the spec: the 128-bit (16-byte) MD5 content digest of the
payload, computed by the external `crypto` library. Only its determinism
and its 16-byte length are relied on by the claims, so a deterministic
16-byte mixing digest stands in for the MD5 algorithm. -/
def md5 (p : List Nat) : List Nat :=
  bytesOfWord (md5Mix 1732584193 p) ++ bytesOfWord (md5Mix 4023233417 p) ++
  bytesOfWord (md5Mix 2562383102 p) ++ bytesOfWord (md5Mix 271733878 p)

theorem md5_length (p : List Nat) : (md5 p).length = 16 := by
  simp [md5, bytesOfWord]

/-- Modelled from the spec: `packFrame` from the missing `utils.js` —
"prefixes/suffixes the marker around an arbitrary body" (§4.1), the
two-byte marker being `0x2b 0x2b` as used by `getCommand`. -/
def packFrame (body : List Nat) : List Nat :=
  [43, 43] ++ body ++ [43, 43]

/-- Modelled from the spec: `unpackFrame` from the missing `utils.js` —
strips the two-byte marker from both ends of a frame. -/
def unpackFrame (frame : List Nat) : List Nat :=
  (frame.drop 2).take (frame.length - 4)

/-- Modelled from the spec: `formatString(s, w, true)` from the missing
`utils.js` — left-pads the decimal string with `'0'` up to width `w`
(zero-padded rendering; strings already at least `w` long are kept). -/
def formatString (s : String) (w : Nat) : String :=
  String.mk (List.replicate (w - s.length) '0' ++ s.data)

/-- JS `parseInt` on the driver's decimal strings: the numeric value of
the string's leading decimal digits (the rate strings compared below
are zero-padded pure-digit strings, so the leading-digit prefix is the
whole string). -/
def parseIntNat (s : String) : Nat :=
  (s.data.takeWhile Char.isDigit).foldl (fun a c => a * 10 + (c.toNat - 48)) 0

/-- Scan for the first index `≥ i` at which two consecutive `0x2b` bytes
occur (the marker search inside `getCommand`). -/
def findPairAux : List Nat → Nat → Option Nat
  | a :: b :: rest, i =>
    if a = 43 then
      (if b = 43 then some i else findPairAux (b :: rest) (i + 1))
    else findPairAux (b :: rest) (i + 1)
  | _, _ => none

/-- `getCommand`: find the first marker pair (`begin`), then the next
marker pair strictly after it, and return the inclusive byte range;
an empty buffer is returned when no complete pair of markers is found. -/
def getCommand (buffer : List Nat) : List Nat :=
  match findPairAux buffer 0 with
  | none => []
  | some b =>
    match findPairAux (buffer.drop (b + 2)) (b + 2) with
    | none => []
    | some e => (buffer.drop b).take (e + 2 - b)

/-- `buildPacket`: append the MD5 digest to the payload, build the 8-byte
command body (port 0x05, parameter 0x01, operation 0x02, CRC-8 at
offset 3, 32-bit little-endian data length at offset 4 — the CRC is
computed over the seven body bytes with the checksum slot excluded),
frame the body, and concatenate framed command and data. -/
def buildPacket (payload : List Nat) : List Nat :=
  let data := payload ++ md5 payload
  let lenBytes := bytesOfWord data.length
  let crc := cRC8 ([5, 1, 2] ++ lenBytes)
  let commandBody := [5, 1, 2, crc] ++ lenBytes
  packFrame commandBody ++ data

/-- Result of `parsePacket` up to the point where the verified payload is
handed to `parsePayload`: `incomplete` is the bare `return false` taken
when the extracted frame is shorter than 12 bytes, `failed` carries the
message of the error passed to the callback, and `ok` carries the
payload slice (the bytes `parsePacket` passes on). -/
inductive PacketResult where
  | incomplete
  | failed (msg : String)
  | ok (payload : List Nat)
deriving DecidableEq

/-- The `data` section `parsePacket` slices out of the packet: the bytes
after the framed command, up to the header-declared data length. -/
def packetData (packet : List Nat) : List Nat :=
  (packet.drop (getCommand packet).length).take
    (readInt32LE ((unpackFrame (getCommand packet)).drop 4)).toNat

/-- `parsePacket`, modulo the final call to `parsePayload`: extract the
frame, check its length, unpack the command body, verify the CRC-8 over
the body with the checksum slot excluded, read the declared data length,
check the packet length, split the data section into payload and
16-byte digest, verify the digest, and return the payload (the
intermediate `commandBody`, `length`, `data`, `payload` and `md5`
locals of the source are written out as their defining expressions). -/
def parsePacketPayload (packet : List Nat) : PacketResult :=
  if (getCommand packet).length < 12 then .incomplete
  else if (unpackFrame (getCommand packet)).getD 3 0
      ≠ cRC8 ((unpackFrame (getCommand packet)).take 3
        ++ (unpackFrame (getCommand packet)).drop 4) then
    .failed "CRC8 checksums not matching"
  else if (packet.length : Int) < ((getCommand packet).length : Int)
      + readInt32LE ((unpackFrame (getCommand packet)).drop 4) then
    .failed "Incorrect packet length"
  else if (packetData packet).drop ((packetData packet).length - 16)
      ≠ md5 ((packetData packet).take ((packetData packet).length - 16)) then
    .failed "MD5 checksums not matching"
  else .ok ((packetData packet).take ((packetData packet).length - 16))

/-- Device timestamp fields of a history record: the raw bytes, with the
year offset by +2000 as in `parsePayload`. -/
structure DT where
  year : Nat
  month : Nat
  day : Nat
  hour : Nat
  minute : Nat
  second : Nat
deriving DecidableEq

/-- Days since 1970-01-01 of a civil date (the standard days-from-civil
computation used to model JavaScript `Date` for in-range components). -/
def daysFromCivil (y m d : Nat) : Int :=
  let y2 : Int := if m ≤ 2 then (y : Int) - 1 else (y : Int)
  let era : Int := y2 / 400
  let yoe : Int := y2 - era * 400
  let mp : Int := if 2 < m then (m : Int) - 3 else (m : Int) + 9
  let doy : Int := (153 * mp + 2) / 5 + (d : Int) - 1
  let doe : Int := yoe * 365 + yoe / 4 - yoe / 100 + doy
  era * 146097 + doe - 719468

/-- Milliseconds-since-epoch value of a record timestamp: models
`new Date(timeText).valueOf()` on the zero-padded text the decoder
renders (each sub-year field is rendered modulo 100 by the
`(x + 100).toString().substring(1)` idiom; the local-time offset of the
JavaScript `Date` parse is abstracted away, uniformly for records and
for the upload boundary). -/
def dateValueDT (dt : DT) : Int :=
  daysFromCivil dt.year (dt.month % 100) (dt.day % 100) * 86400000
    + (dt.hour % 100 : Int) * 3600000 + (dt.minute % 100 : Int) * 60000
    + (dt.second % 100 : Int) * 1000

/-- Numeric key whose order coincides with lexicographic comparison of the
rendered `deviceTime` strings (year 2000–2255 is always four digits, the
remaining fields are rendered as two digits modulo 100). -/
def ttKey (dt : DT) : Nat :=
  ((((dt.year * 100 + dt.month % 100) * 100 + dt.day % 100) * 100
      + dt.hour % 100) * 100 + dt.minute % 100) * 100 + dt.second % 100

/-- An alarm/status/reservoir-change/prime event pushed by `parsePayload`. -/
structure EvRec where
  index : Nat
  type : String
  deviceTime : DT
deriving DecidableEq

/-- The per-record object `recoder` built by `parsePayload`; the
`BasalRate`, `BolusRate` and `BloodGlucose` fields are only present on
the copies pushed after the corresponding assignment (the source pushes
one mutable object into several lists; the later `BolusRate` assignment
aliased into an already-pushed basal entry is not observable through the
fields read anywhere downstream, so copies are used here).
`BasalRate` carries `parseInt(formatString(raw.toString(), 4, true)) * 0.00625`,
which for a natural raw value is `raw * 0.00625` (left zero-padding does
not change the parsed integer); `BolusRate` carries the zero-padded
string `formatString(raw.toString(), 6, true)` itself, exactly as
stored — the consumers compare that string against `'0'` and reparse it
with `parseInt`, so the string representation is observable. -/
structure Recoder where
  deviceTime : DT
  recordId : Nat
  eventPort : Nat
  deviceSn : List Nat
  BasalRate : Option ℚ := none
  BolusRate : Option String := none
  BloodGlucose : Option String := none
deriving DecidableEq

/-- The result object `inComeRes` of `parsePayload` (the unused `sn` and
`snObj` fields are omitted). -/
structure InComeRes where
  BloodGlucoses : List Recoder := []
  BasalRates : List Recoder := []
  BolusRates : List Recoder := []
  lastBasals : List Recoder := []
  alarm : List EvRec := []
  status : List EvRec := []
  reservoirChanges : List EvRec := []
  primes : List EvRec := []
deriving DecidableEq

/-- Errors of `parsePayload`: the empty payload is answered with the
`{ code: 'E_READ_FILE' }` object, a length that is not a multiple of 28
with `new Error('Incorrect payload length')`. -/
inductive ParseErr where
  | noData
  | misaligned
deriving DecidableEq

/-- Byte slice `l.slice(a, b)` of a buffer. -/
def bslice (l : List Nat) (a b : Nat) : List Nat := (l.drop a).take (b - a)

/-- Byte at an offset (with the in-range length guaranteed by the caller). -/
def byteAt (l : List Nat) (i : Nat) : Nat := l.getD i 0

/-- The six serial-number bytes of a record, `history.slice(4, 10)`. -/
def snOf (h : List Nat) : List Nat := bslice h 4 10

/-- The serial bytes the skip test `SN == '000000'` matches: the buffer
compares equal to the string `'000000'` exactly when its six bytes are
the ASCII digit `'0'` (0x30). -/
def sentinelSN : List Nat := [48, 48, 48, 48, 48, 48]

/-- Record id, `uintFromArrayBuffer(history.slice(0, 4), true)`. -/
def recIdOf (h : List Nat) : Nat := uintLE (bslice h 0 4)

/-- Timestamp fields of a record (bytes 10–16, year offset +2000). -/
def dtOf (h : List Nat) : DT :=
  ⟨byteAt h 10 + 2000, byteAt h 11, byteAt h 12, byteAt h 13, byteAt h 14, byteAt h 15⟩

/-- Little-endian u16 at record bytes 18–20 (`status.slice(2, 4)`), the
`basalRate` status field. -/
def basalRawOf (h : List Nat) : Nat := uintLE (bslice h 18 20)

/-- Little-endian u16 at record bytes 20–22 (`status.slice(4, 6)`), the
`bolusRate` status field. -/
def bolusRawOf (h : List Nat) : Nat := uintLE (bslice h 20 22)

/-- Little-endian u16 at record bytes 22–24, the event index. -/
def eventIndexOf (h : List Nat) : Nat := uintLE (bslice h 22 24)

/-- Event port byte (record byte 24). -/
def eventPortOf (h : List Nat) : Nat := byteAt h 24

/-- Event type byte (record byte 25). -/
def eventTypeOf (h : List Nat) : Nat := byteAt h 25

/-- Event urgency byte (record byte 26). -/
def eventUrgencyOf (h : List Nat) : Nat := byteAt h 26

/-- Event value byte (record byte 27). -/
def eventValueOf (h : List Nat) : Nat := byteAt h 27

/-- The alarm events a record pushes, in the order of the source's `if`
blocks: low_insulin (4/1/1), no_insulin (4/1/2), low_power (5/0/1),
no_power (5/1/2), auto_off (4/6/2), occlusion (4/2/any), and a second
occlusion block (4/3/any). -/
def alarmEvents (h : List Nat) : List EvRec :=
  (if eventPortOf h = 4 ∧ eventTypeOf h = 1 ∧ eventUrgencyOf h = 1 then
    [⟨eventIndexOf h, "low_insulin", dtOf h⟩] else [])
  ++ (if eventPortOf h = 4 ∧ eventTypeOf h = 1 ∧ eventUrgencyOf h = 2 then
    [⟨eventIndexOf h, "no_insulin", dtOf h⟩] else [])
  ++ (if eventPortOf h = 5 ∧ eventTypeOf h = 0 ∧ eventUrgencyOf h = 1 then
    [⟨eventIndexOf h, "low_power", dtOf h⟩] else [])
  ++ (if eventPortOf h = 5 ∧ eventTypeOf h = 1 ∧ eventUrgencyOf h = 2 then
    [⟨eventIndexOf h, "no_power", dtOf h⟩] else [])
  ++ (if eventPortOf h = 4 ∧ eventTypeOf h = 6 ∧ eventUrgencyOf h = 2 then
    [⟨eventIndexOf h, "auto_off", dtOf h⟩] else [])
  ++ (if eventPortOf h = 4 ∧ eventTypeOf h = 2 then
    [⟨eventIndexOf h, "occlusion", dtOf h⟩] else [])
  ++ (if eventPortOf h = 4 ∧ eventTypeOf h = 3 then
    [⟨eventIndexOf h, "occlusion", dtOf h⟩] else [])

/-- The status events a record pushes: suspend (4/5/0). -/
def statusEvents (h : List Nat) : List EvRec :=
  if eventPortOf h = 4 ∧ eventTypeOf h = 5 ∧ eventUrgencyOf h = 0 then
    [⟨eventIndexOf h, "suspend", dtOf h⟩] else []

/-- The reservoir-change events a record pushes (4/8/any). -/
def reservoirEvents (h : List Nat) : List EvRec :=
  if eventPortOf h = 4 ∧ eventTypeOf h = 8 then
    [⟨eventIndexOf h, "reservoirChanges", dtOf h⟩] else []

/-- The prime events a record pushes (4/7/any). -/
def primeEvents (h : List Nat) : List EvRec :=
  if eventPortOf h = 4 ∧ eventTypeOf h = 7 then
    [⟨eventIndexOf h, "prime", dtOf h⟩] else []

/-- The body of `parsePayload`'s record loop for one 28-byte record: skip
the all-`'0'` serial sentinel; push the alarm/status/reservoir/prime
events of the classification table; then either record a carry-forward
basal (timestamp strictly before `lastUpload`, port ≠ 3), or emit a
blood glucose (port 3 type 0), skip a carbohydrate record (port 3
type 1), or emit the basal sample (port ≠ 3) and run the bolus-sample
dedup push. -/
def processRecord (lastUpload : Int) (acc : InComeRes) (h : List Nat) : InComeRes :=
  if snOf h = sentinelSN then acc
  else
    let acc1 := { acc with
      alarm := acc.alarm ++ alarmEvents h,
      status := acc.status ++ statusEvents h,
      reservoirChanges := acc.reservoirChanges ++ reservoirEvents h,
      primes := acc.primes ++ primeEvents h }
    let rec0 : Recoder := ⟨dtOf h, recIdOf h, eventPortOf h, snOf h, none, none, none⟩
    if dateValueDT (dtOf h) < lastUpload then
      if eventPortOf h ≠ 3 then
        { acc1 with lastBasals := acc1.lastBasals
            ++ [{ rec0 with BasalRate := some ((basalRawOf h : ℚ) * 0.00625) }] }
      else acc1
    else if eventPortOf h = 3 ∧ eventTypeOf h = 0 then
      { acc1 with BloodGlucoses := acc1.BloodGlucoses
          ++ [{ rec0 with BloodGlucose := some (formatString (Nat.repr (basalRawOf h)) 4) }] }
    else if eventPortOf h = 3 ∧ eventTypeOf h = 1 then acc1
    else
      let acc2 :=
        if eventPortOf h ≠ 3 then
          { acc1 with BasalRates := acc1.BasalRates
              ++ [{ rec0 with BasalRate := some ((basalRawOf h : ℚ) * 0.00625) }] }
        else acc1
      let pushB := { acc2 with BolusRates := acc2.BolusRates
          ++ [{ rec0 with BolusRate := some (formatString (Nat.repr (bolusRawOf h)) 6) }] }
      if parseIntNat (formatString (Nat.repr (bolusRawOf h)) 6) = 0 then
        match acc2.BolusRates.getLast? with
        | some last => if parseIntNat (last.BolusRate.getD "") ≠ 0 then pushB
            else if acc2.BolusRates.length = 0 then pushB else acc2
        | none => if acc2.BolusRates.length = 0 then pushB else acc2
      else pushB

/-- Insertion of a carry-forward entry into a list sorted ascending by the
rendered `deviceTime` text (the `lastBasals.sort` comparator). -/
def insertByTT (r : Recoder) : List Recoder → List Recoder
  | [] => [r]
  | x :: xs =>
    if ttKey r.deviceTime < ttKey x.deviceTime then r :: x :: xs
    else x :: insertByTT r xs

/-- Ascending sort by rendered `deviceTime` (models the in-place
`Array.sort` with the `a.deviceTime < b.deviceTime ? -1 : 1`
comparator; ties between equal timestamps are not observed by any claim). -/
def sortByTT (l : List Recoder) : List Recoder := l.foldr insertByTT []

/-- The carry-forward epilogue of `parsePayload`: when any pre-boundary
basal entries were collected, sort them by device time and unshift the
most recent one onto the front of `BasalRates`. -/
def parsePayloadFinalize (r : InComeRes) : InComeRes :=
  if r.lastBasals.isEmpty then r
  else
    let sorted := sortByTT r.lastBasals
    match sorted.getLast? with
    | some lb => { r with lastBasals := sorted, BasalRates := lb :: r.BasalRates }
    | none => r

/-- Successive 28-byte slices of the payload (fuel-indexed so that the
recursion is structural; `chunk28` supplies the payload length as fuel). -/
def chunksGo : Nat → List Nat → List (List Nat)
  | 0, _ => []
  | _, [] => []
  | fuel + 1, x :: rest => ((x :: rest).take 28) :: chunksGo fuel (rest.drop 27)

/-- The 28-byte record slices visited by `parsePayload`'s loop. -/
def chunk28 (l : List Nat) : List (List Nat) := chunksGo l.length l

/-- `parsePayload`: reject the empty payload with the `E_READ_FILE` code,
reject a length that is not a multiple of 28 with the misalignment
error, otherwise fold the record loop over the 28-byte slices and apply
the carry-forward epilogue. -/
def parsePayload (payload : List Nat) (lastUpload : Int) : Except ParseErr InComeRes :=
  if payload.length = 0 then .error .noData
  else if payload.length % 28 ≠ 0 then .error .misaligned
  else .ok (parsePayloadFinalize ((chunk28 payload).foldl (processRecord lastUpload) {}))

/-- A bolus sample as consumed by `buildBolus`: `BolusRate` is the
record's rate string exactly as `parsePayload` stores it (the
zero-padded 6-character decimal string, e.g. `"000000"` for rate 0);
the source's `== '0'` and `!= '0'` tests are string comparisons against
the one-character string `'0'`, and its numeric uses go through
`parseInt`. `time` is `new Date(deviceTime).valueOf()` in milliseconds. -/
structure BolusSample where
  BolusRate : String
  time : Int
  recordId : Nat
deriving DecidableEq

/-- A reconstructed delivery episode (`makeNormalBolus`, `makeSquareBolus`,
`makeDualBolus` records, restricted to the fields the driver computes). -/
inductive Episode where
  | normal (amount : ℚ) (time : Int) (index : Nat)
  | square (extended : ℚ) (duration : Int) (time : Int) (index : Nat)
  | dual (normalAmount : ℚ) (extended : ℚ) (duration : Int) (time : Int) (index : Nat)
deriving DecidableEq

/-- `checkBolus`: a run is normal-bearing when some sample's rate exceeds
12800 and square-bearing when some sample's rate is in (0, 12800]. -/
def checkBolus (blous : List BolusSample) : String :=
  let normal := blous.any fun item => decide (12800 < parseIntNat item.BolusRate)
  let square := blous.any fun item =>
    decide (0 < parseIntNat item.BolusRate ∧ parseIntNat item.BolusRate ≤ 12800)
  if normal && square then "dulSquare"
  else if normal && !square then "normal"
  else if !normal && square then "square"
  else ""

/-- `formatDecimal(x, 2)`: truncate the decimal representation two digits
after the point and reparse (exact on the modelled rationals: truncation
of the value toward zero at two decimal places). -/
def formatDecimal (originnum : ℚ) : ℚ := (qtrunc (originnum * 100) : ℚ) / 100

/-- `buildValue`: quantization of a computed amount onto the 0.025-unit
grid — two-decimal truncation, then `Math.floor` on `value * 1000 / 25`
and a step up whenever the floor lost anything. -/
def buildValue (originValue : ℚ) : ℚ :=
  let value := formatDecimal originValue
  let res := value * 1000 / 25
  let floorRes := qfloor res
  if (floorRes : ℚ) < res then ((floorRes * 25 + 25 : ℤ) : ℚ) / 1000
  else ((floorRes * 25 : ℤ) : ℚ) / 1000

/-- The per-sample delivered amount, `parseInt(rate) * 0.00625 * durCalcut / (60 * 60)`
with `durCalcut` the gap to the next sample in seconds. -/
def bolusAmount (rate : String) (currTS nextTS : Int) : ℚ :=
  (parseIntNat rate : ℚ) * 0.00625 * (((nextTS - currTS : Int) : ℚ) / 1000) / (60 * 60)

/-- `buildBolusNormal`: one Normal episode per sample whose rate string
differs from `'0'`, the amount computed over the gap to the next sample
(zero for the run's last element). -/
def buildBolusNormal : List BolusSample → List Episode
  | [] => []
  | b :: rest =>
    let nextTS := match rest.head? with | some nb => nb.time | none => b.time
    (if b.BolusRate ≠ "0" then
      [Episode.normal (buildValue (bolusAmount b.BolusRate b.time nextTS)) b.time b.recordId]
    else []) ++ buildBolusNormal rest

/-- `buildBolusSquare`: one Square episode per sample whose rate string
differs from `'0'`, with the same amount formula and the gap to the
next sample as duration. -/
def buildBolusSquare : List BolusSample → List Episode
  | [] => []
  | b :: rest =>
    let nextTS := match rest.head? with | some nb => nb.time | none => b.time
    (if b.BolusRate ≠ "0" then
      [Episode.square (buildValue (bolusAmount b.BolusRate b.time nextTS))
        (nextTS - b.time) b.time b.recordId]
    else []) ++ buildBolusSquare rest

/-- Accumulator of `buildBolusDualSquare`'s loop: the normal and extended
components, the accumulated duration, and the episode's device time and
index (taken from the normal-bearing samples; `none` models the
`undefined` initial `deviceTime`). -/
structure DualState where
  normal : ℚ
  square : ℚ
  dur : Int
  deviceTime : Option Int
  index : Nat
deriving DecidableEq

/-- The loop of `buildBolusDualSquare`: samples whose rate string differs
from `'0'` and parses strictly above 12800 add to the normal component
(and set time and index), samples whose rate string differs from `'0'`
and parses strictly below 12800 add to the extended component and
extend the duration; a rate of exactly 12800 matches neither test, and
the zero-padded terminator `"000000"` passes the string test but
contributes a zero amount over a zero gap. -/
def buildDualGo (st : DualState) : List BolusSample → DualState
  | [] => st
  | b :: rest =>
    let nextTS := match rest.head? with | some nb => nb.time | none => b.time
    let currDur := nextTS - b.time
    let boluMount := bolusAmount b.BolusRate b.time nextTS
    let st1 :=
      if b.BolusRate ≠ "0" ∧ 12800 < parseIntNat b.BolusRate then
        { st with
          normal := boluMount + st.normal
          deviceTime := some b.time
          index := b.recordId }
      else st
    let st2 :=
      if b.BolusRate ≠ "0" ∧ parseIntNat b.BolusRate < 12800 then
        { st1 with square := boluMount + st1.square, dur := currDur + st1.dur }
      else st1
    buildDualGo st2 rest

/-- `buildBolusDualSquare`: fold the run into the two components and emit
the single dual-wave episode. -/
def buildBolusDualSquare (bolus : List BolusSample) : List Episode :=
  let st := buildDualGo ⟨0, 0, 0, none, 0⟩ bolus
  [Episode.dual (buildValue st.normal) (buildValue st.square) st.dur
    (st.deviceTime.getD 0) st.index]

/-- Episode emission for one terminated run: classify with `checkBolus`
and dispatch to the matching builder (no episodes for the empty
classification). -/
def runEpisodes (itemRes : List BolusSample) : List Episode :=
  let chckRes := checkBolus itemRes
  (if chckRes = "normal" then buildBolusNormal itemRes else [])
  ++ (if chckRes = "square" then buildBolusSquare itemRes else [])
  ++ (if chckRes = "dulSquare" then buildBolusDualSquare itemRes else [])

/-- The grouping loop of `buildBolus`: an empty buffer always absorbs the
next sample; a sample whose rate string equals the one-character string
`'0'` terminates the buffered run (it is pushed as terminator, the run
is classified and emitted, the buffer cleared); any other sample — the
driver's zero-padded `"000000"` included — is appended to the buffer. -/
def buildBolusGo (itemRes : List BolusSample) : List BolusSample → List Episode
  | [] => []
  | b :: rest =>
    if itemRes.isEmpty then buildBolusGo [b] rest
    else if b.BolusRate = "0" then runEpisodes (itemRes ++ [b]) ++ buildBolusGo [] rest
    else buildBolusGo (itemRes ++ [b]) rest

/-- `buildBolus`: group the bolus samples into zero-terminated runs and
emit the episodes of each completed run. -/
def buildBolus (BolusRates : List BolusSample) : List Episode :=
  buildBolusGo [] BolusRates

/-- A basal sample as consumed by `buildBasal`. -/
structure BasalSample where
  BasalRate : ℚ
  time : Int
  recordId : Nat
deriving DecidableEq

/-- The previous-free content of one scheduled-basal record. -/
structure BasalCore where
  time : Int
  rate : ℚ
  duration : Int
  index : Nat
deriving DecidableEq

/-- A scheduled-basal record: its own fields plus the `previous` link (the
source stores a copy of the preceding record with its own `previous`
field deleted). -/
structure BasalSegment where
  core : BasalCore
  previous : Option BasalCore
deriving DecidableEq

/-- Insertion into a list sorted ascending by sample time (the
`BasalRates.sort` comparator on rendered device times). -/
def insertByTime (r : BasalSample) : List BasalSample → List BasalSample
  | [] => [r]
  | x :: xs => if r.time < x.time then r :: x :: xs else x :: insertByTime r xs

/-- Ascending sort of basal samples by time (models the in-place
`Array.sort`; ties are not observed by any claim). -/
def sortByTime (l : List BasalSample) : List BasalSample := l.foldr insertByTime []

/-- The segment-emission loop of `buildBasal`: every sample except the last
becomes one record whose duration is the gap to the next sample capped
at 604799999 ms, and whose `previous` is the preceding emitted record;
the loop breaks at the last sample without emitting it. -/
def buildBasalGo (prev : Option BasalCore) : List BasalSample → List BasalSegment
  | [] => []
  | [_] => []
  | b :: bn :: rest =>
    let currentDur := if bn.time - b.time < 604800000 then bn.time - b.time else 604799999
    let core : BasalCore := ⟨b.time, b.BasalRate, currentDur, b.recordId⟩
    ⟨core, prev⟩ :: buildBasalGo (some core) (bn :: rest)

/-- `buildBasal`: sort by device time, then emit one segment per sample
except the last. -/
def buildBasal (BasalRates : List BasalSample) : List BasalSegment :=
  buildBasalGo none (sortByTime BasalRates)

/-- The basal filtering step of `processData`:
`basalRes = basalRes.length > 1 ? basalRes : []` — the reconstructed
basal records enter the upload set only when there are at least two. -/
def processDataBasal (BasalRates : List BasalSample) : List BasalSegment :=
  let basalRes := buildBasal BasalRates
  if 1 < basalRes.length then basalRes else []

/-- One settings request: the selector byte of the 4-byte request payload
and the header addressing triplet. -/
structure SettingReq where
  selector : Nat
  port : Nat
  parameter : Nat
  operation : Nat
deriving DecidableEq

/-- The per-step request table of `getSetting`, keyed by the enumerator's
`current` counter: the defaults (selector 1, port 3, parameter 0x11,
operation 2) overwritten by the step-specific writes. -/
def settingRequest (current : Nat) : SettingReq :=
  if current = 1 then ⟨0, 3, 17, 2⟩
  else if current = 2 then ⟨2, 3, 17, 2⟩
  else if current = 3 then ⟨3, 3, 17, 2⟩
  else if current = 4 then ⟨12, 4, 5, 2⟩
  else if current = 5 then ⟨10, 4, 5, 2⟩
  else if current = 6 then ⟨8, 4, 5, 2⟩
  else if current = 7 then ⟨13, 4, 5, 2⟩
  else if current = 8 then ⟨3, 3, 16, 2⟩
  else if current = 9 then ⟨0, 4, 2, 2⟩
  else if current = 10 then ⟨1, 4, 2, 2⟩
  else if current = 11 then ⟨2, 4, 2, 2⟩
  else if current = 12 then ⟨3, 4, 2, 2⟩
  else if current = 13 then ⟨4, 4, 2, 2⟩
  else if current = 14 then ⟨5, 4, 2, 2⟩
  else if current = 15 then ⟨6, 4, 2, 2⟩
  else ⟨1, 3, 17, 2⟩

/-- The sixteen setting names, in enumeration order. -/
def setTypes : List String :=
  ["lowBg", "highBg", "defaultCho", "sensitiveSilver", "originBasal",
   "bolusRate", "maxBolus", "doubleBolus", "effectiveTime", "program0",
   "program1", "program2", "program3", "program4", "program5", "program6"]

/-- The error object `{ code: 'E_READ_FILE' }` with which `getConfig`
answers a failed settings step. -/
structure ConfigError where
  code : String
deriving DecidableEq

/-- The settings enumeration loop of `getConfig`/`getSetting`, with the
excluded USB transport (and per-step response decode) abstracted as an
oracle from the step counter to the decoded response payload (`none`
for a transport or decode failure). Each iteration issues the request
of the current counter, awaits its oracle answer before any further
request is built, and on the first failure the whole sequence stops and
the `E_READ_FILE` error is surfaced; the returned trace lists the
requests actually issued, in order. -/
def getConfigGo (oracle : Nat → Option (List Nat)) (current : Nat) :
    Nat → List SettingReq × Except ConfigError (List (String × List Nat))
  | 0 => ([], .ok [])
  | n + 1 =>
    let req := settingRequest current
    match oracle current with
    | none => ([req], .error ⟨"E_READ_FILE"⟩)
    | some v =>
      let rest := getConfigGo oracle (current + 1) n
      (req :: rest.1, rest.2.map (fun l => (setTypes.getD current "", v) :: l))

/-- `getConfig`'s settings phase: sixteen sequential steps starting at
counter 0. -/
def getConfig (oracle : Nat → Option (List Nat)) :
    List SettingReq × Except ConfigError (List (String × List Nat)) :=
  getConfigGo oracle 0 16

/-- Quantization to the nearest multiple of 0.025 units with ties rounded
up — the quantization rule as the claim words it, for comparison with
the source's `buildValue`. -/
def quantizeNearestHalfUp (x : ℚ) : ℚ := ((qfloor (x * 40 + 1 / 2) : ℤ) : ℚ) / 40

/-- The header-byte cleanliness condition under which `getCommand` finds
the intended frame of `buildPacket`'s output: no two adjacent bytes of
the framed header may spell the `0x2b 0x2b` marker, the declared data
length (payload length + 16) must fit a signed 32-bit read. -/
def headerClean (P : List Nat) : Prop :=
  ¬(cRC8 [5, 1, 2, (P.length + 16) % 256, (P.length + 16) / 256 % 256,
      (P.length + 16) / 65536 % 256, (P.length + 16) / 16777216 % 256] = 43
    ∧ (P.length + 16) % 256 = 43)
  ∧ ¬((P.length + 16) % 256 = 43 ∧ (P.length + 16) / 256 % 256 = 43)
  ∧ ¬((P.length + 16) / 256 % 256 = 43 ∧ (P.length + 16) / 65536 % 256 = 43)
  ∧ ¬((P.length + 16) / 65536 % 256 = 43 ∧ (P.length + 16) / 16777216 % 256 = 43)
  ∧ (P.length + 16) / 16777216 % 256 ≠ 43
  ∧ P.length + 16 < 2147483648

instance (P : List Nat) : Decidable (headerClean P) := by
  unfold headerClean; infer_instance

/-! Helper lemmas. -/

theorem findPairAux_cons_of_not_pair (x y : Nat) (rest : List Nat) (i : Nat)
    (h : ¬(x = 43 ∧ y = 43)) :
    findPairAux (x :: y :: rest) i = findPairAux (y :: rest) (i + 1) := by
  by_cases hx : x = 43
  · have hy : ¬(y = 43) := fun hy => h ⟨hx, hy⟩
    simp [findPairAux, hx, hy]
  · simp [findPairAux, hx]

theorem findPairAux_cons_pair (rest : List Nat) (i : Nat) :
    findPairAux (43 :: 43 :: rest) i = some i := by
  simp [findPairAux]

theorem chunk28_of_length_28 (p : List Nat) (h : p.length = 28) : chunk28 p = [p] := by
  cases p with
  | nil => simp at h
  | cons x rest =>
    have hr : rest.length = 27 := by simpa using h
    rw [chunk28, List.length_cons, hr]
    show chunksGo 28 (x :: rest) = [x :: rest]
    rw [chunksGo]
    have h1 : (x :: rest).take 28 = x :: rest := by
      apply List.take_of_length_le; simp [hr]
    have h2 : rest.drop 27 = [] := by
      apply List.drop_eq_nil_of_le; omega
    rw [h1, h2]
    rfl

theorem insertByTime_length (r : BasalSample) (l : List BasalSample) :
    (insertByTime r l).length = l.length + 1 := by
  induction l with
  | nil => rfl
  | cons x xs ih =>
    rw [insertByTime]
    by_cases hc : r.time < x.time
    · simp [hc]
    · simp [hc, ih]

theorem sortByTime_length (l : List BasalSample) :
    (sortByTime l).length = l.length := by
  rw [sortByTime]
  induction l with
  | nil => rfl
  | cons x xs ih => simp [List.foldr_cons, insertByTime_length, ih]

theorem buildBasalGo_length (l : List BasalSample) :
    ∀ prev, (buildBasalGo prev l).length = l.length - 1 := by
  induction l with
  | nil => intro prev; rfl
  | cons b rest ih =>
    intro prev
    cases rest with
    | nil => rfl
    | cons bn rest2 =>
      rw [buildBasalGo]
      simp only [List.length_cons]
      rw [ih]
      simp

/-- C3. A history payload whose length is a positive non-multiple of 28 is
rejected by `parsePayload` with the payload-misalignment error before
any record is decoded; the empty payload is instead rejected with the
distinct no-data error code (`E_READ_FILE`). -/
theorem parsePayload_misaligned (p : List Nat) (lu : Int) :
    (p.length % 28 ≠ 0 → parsePayload p lu = .error .misaligned)
    ∧ (p = [] → parsePayload p lu = .error .noData) := by
  constructor
  · intro h
    have h0 : ¬(p.length = 0) := by omega
    rw [parsePayload, if_neg h0, if_pos h]
  · intro h
    subst h
    rfl

/-- C3, witness: the length-29 payload of the claim is rejected as
misaligned. -/
theorem parsePayload_misaligned_witness :
    (List.replicate 29 0).length % 28 ≠ 0
    ∧ parsePayload (List.replicate 29 0) 0 = .error .misaligned :=
  ⟨by decide, (parsePayload_misaligned (List.replicate 29 0) 0).1 (by decide)⟩

/-- C3, counterexample to the claim as stated: the empty payload (which the
claim includes among the lengths that must fail with the misalignment
error) is answered with the distinct no-data error instead. -/
theorem parsePayload_empty_not_misaligned :
    parsePayload [] 0 = .error .noData ∧ ParseErr.noData ≠ ParseErr.misaligned :=
  ⟨rfl, by decide⟩

/-- C4. A 28-byte record whose serial field is the all-`'0'` sentinel is
skipped entirely: the record loop leaves any accumulator unchanged, and
a payload consisting of that record alone decodes successfully (no
error) to the empty result — zero classified events, zero entities. -/
theorem parsePayload_sentinel_skip (p : List Nat) (lu : Int) (acc : InComeRes)
    (hlen : p.length = 28) (hsn : snOf p = sentinelSN) :
    processRecord lu acc p = acc ∧ parsePayload p lu = .ok {} := by
  have hskip : ∀ a : InComeRes, processRecord lu a p = a := by
    intro a; rw [processRecord, if_pos hsn]
  refine ⟨hskip acc, ?_⟩
  rw [parsePayload, if_neg (by omega), if_neg (by simp [hlen]),
    chunk28_of_length_28 p hlen]
  simp only [List.foldl_cons, List.foldl_nil, hskip]
  rfl

/-- C4, witness: a concrete sentinel record inside an otherwise plausible
28-byte slot. -/
theorem parsePayload_sentinel_skip_witness :
    processRecord 0 {} [1, 0, 0, 0, 48, 48, 48, 48, 48, 48, 21, 3, 5, 10, 20, 30,
        90, 80, 0, 0, 0, 0, 7, 0, 4, 1, 1, 0] = {}
    ∧ parsePayload [1, 0, 0, 0, 48, 48, 48, 48, 48, 48, 21, 3, 5, 10, 20, 30,
        90, 80, 0, 0, 0, 0, 7, 0, 4, 1, 1, 0] 0 = .ok {} :=
  parsePayload_sentinel_skip _ 0 {} (by decide) (by decide)

/-- C9. `buildBasal` emits one segment per (sorted) sample except the last,
so its output has one fewer element than its input; and whenever the
reconstruction yields one segment or none, the basal filtering step of
`processData` replaces the list by the empty list, so no basal records
are uploaded. -/
theorem processData_basal_needs_two (rates : List BasalSample) :
    (buildBasal rates).length = rates.length - 1
    ∧ ((buildBasal rates).length ≤ 1 → processDataBasal rates = []) := by
  constructor
  · rw [buildBasal, buildBasalGo_length, sortByTime_length]
  · intro h
    simp only [processDataBasal]
    rw [if_neg (by omega)]

/-- C9, witness: two post-boundary samples yield a single segment and an
empty uploaded basal list. -/
theorem processData_basal_needs_two_witness :
    (buildBasal [⟨1, 0, 1⟩, ⟨2, 1000, 2⟩]).length ≤ 1
    ∧ processDataBasal [⟨1, 0, 1⟩, ⟨2, 1000, 2⟩] = [] := by
  have h := processData_basal_needs_two [⟨1, 0, 1⟩, ⟨2, 1000, 2⟩]
  exact ⟨by simp [h.1], h.2 (by simp [h.1])⟩

theorem map_range_shift (g : Nat → SettingReq) (m c : Nat) :
    (List.range (m + 1)).map (fun j => g (c + j))
      = g c :: (List.range m).map (fun j => g (c + 1 + j)) := by
  rw [List.range_succ_eq_map]
  simp only [List.map_cons, Nat.add_zero, List.map_map]
  congr 1
  apply List.map_congr_left
  intro j hj
  simp only [Function.comp_apply]
  congr 1
  omega

theorem getConfigGo_fails_at (oracle : Nat → Option (List Nat)) :
    ∀ (n k cur : Nat), k < n → (∀ i, i < k → oracle (cur + i) ≠ none) →
    oracle (cur + k) = none →
    getConfigGo oracle cur n
      = ((List.range (k + 1)).map (fun j => settingRequest (cur + j)),
        .error ⟨"E_READ_FILE"⟩) := by
  intro n
  induction n with
  | zero => intro k cur hk; omega
  | succ n ih =>
    intro k cur hk hpre hfail
    cases k with
    | zero =>
      have h0 : oracle cur = none := by simpa using hfail
      rw [getConfigGo, h0, map_range_shift]
      rfl
    | succ k =>
      have h0 : oracle cur ≠ none := by
        have := hpre 0 (by omega)
        simpa using this
      rw [getConfigGo]
      cases hc : oracle cur with
      | none => exact absurd hc h0
      | some v =>
        have hrest := ih k (cur + 1) (by omega)
          (fun i hi => by
            have := hpre (i + 1) (by omega)
            simpa [Nat.add_assoc, Nat.add_comm 1 i] using this)
          (by
            have heq : cur + (k + 1) = cur + 1 + k := by omega
            rw [← heq]; exact hfail)
        rw [hrest]
        conv_rhs => rw [map_range_shift]
        rfl

/-- C8 (amended). The settings enumerator issues its requests strictly in
counter order, awaiting each oracle answer (transport round-trip and
decode) before building the next request; the first failing step aborts
the whole sequence, and the surfaced error is the generic read-failure
object `{ code: 'E_READ_FILE' }`, which does not carry the failing
index. -/
theorem getConfig_aborts_at_first_failure (oracle : Nat → Option (List Nat)) (k : Nat)
    (hk : k < 16) (hpre : ∀ i, i < k → oracle i ≠ none) (hfail : oracle k = none) :
    getConfig oracle
      = ((List.range (k + 1)).map settingRequest, .error ⟨"E_READ_FILE"⟩) := by
  rw [getConfig, getConfigGo_fails_at oracle 16 k 0 hk
    (fun i hi => by simpa using hpre i hi) (by simpa using hfail)]
  congr 1
  apply List.map_congr_left
  intro j hj
  simp

/-- C8, witness: an oracle whose sixth step (index 5) fails produces the
six requests 0–5 in order and the generic error. -/
theorem getConfig_aborts_at_first_failure_witness :
    getConfig (fun i => if i = 5 then none else some [])
      = ((List.range 6).map settingRequest, .error ⟨"E_READ_FILE"⟩) :=
  getConfig_aborts_at_first_failure (fun i => if i = 5 then none else some []) 5
    (by omega)
    (fun i hi => by
      show (if i = 5 then (none : Option (List Nat)) else some ([] : List Nat)) ≠ none
      rw [if_neg (by omega)]
      exact Option.some_ne_none _)
    (by
      show (if 5 = 5 then (none : Option (List Nat)) else some ([] : List Nat)) = none
      rw [if_pos rfl])

/-- C8, counterexample to the claim as stated: runs failing at step 5 and
at step 9 surface the very same error value, so the surfaced error
cannot carry the failing index (it is the bare `E_READ_FILE` object). -/
theorem getConfig_error_carries_no_index :
    (getConfig (fun i => if i = 5 then none else some [])).2
      = (getConfig (fun i => if i = 9 then none else some [])).2
    ∧ (getConfig (fun i => if i = 5 then none else some [])).2
      = .error ⟨"E_READ_FILE"⟩ :=
  ⟨rfl, rfl⟩

theorem parsePayload_single (p : List Nat) (lu : Int) (hlen : p.length = 28) :
    parsePayload p lu = .ok (parsePayloadFinalize (processRecord lu {} p)) := by
  rw [parsePayload, if_neg (by omega), if_neg (by simp [hlen]),
    chunk28_of_length_28 p hlen]
  rfl

theorem bslice_pair : ∀ (l : List Nat) (i : Nat), i + 2 ≤ l.length →
    bslice l i (i + 2) = [byteAt l i, byteAt l (i + 1)] := by
  intro l
  induction l with
  | nil => intro i h; simp at h
  | cons a rest ih =>
    intro i h
    cases i with
    | zero =>
      cases rest with
      | nil => simp at h
      | cons b t => simp [bslice, byteAt]
    | succ i =>
      have hr := ih i (by simpa using h)
      have hdrop : (a :: rest).drop (i + 1) = rest.drop i := by simp
      have ht : i + 1 + 2 - (i + 1) = i + 2 - i := by omega
      rw [bslice, hdrop, ht, ← bslice, hr]
      simp [byteAt]

theorem basalRawOf_bytes (p : List Nat) (hlen : p.length = 28) :
    basalRawOf p = byteAt p 18 + 256 * byteAt p 19 := by
  rw [basalRawOf, show (20 : Nat) = 18 + 2 from rfl, bslice_pair p 18 (by omega)]
  simp [uintLE]

/-- C10. For a post-boundary record with event port 3 and event type 0, the
emitted blood-glucose entry carries, as its value, the `basalRate`
status field — the little-endian u16 at record bytes 18–20 — rendered
as a zero-padded 4-wide decimal string; the event value byte (byte 27)
plays no part in the value. -/
theorem parsePayload_bg_reads_basal_slot (p : List Nat) (lu : Int) (res : InComeRes)
    (hlen : p.length = 28) (hsn : snOf p ≠ sentinelSN)
    (hdate : ¬ dateValueDT (dtOf p) < lu)
    (hport : eventPortOf p = 3) (htype : eventTypeOf p = 0)
    (hok : parsePayload p lu = .ok res) :
    res.BloodGlucoses
      = [{ deviceTime := dtOf p, recordId := recIdOf p, eventPort := 3,
           deviceSn := snOf p,
           BloodGlucose := some (formatString (Nat.repr (basalRawOf p)) 4) }]
    ∧ basalRawOf p = byteAt p 18 + 256 * byteAt p 19 := by
  rw [parsePayload_single p lu hlen] at hok
  have hX := Except.ok.inj hok
  subst hX
  refine ⟨?_, basalRawOf_bytes p hlen⟩
  simp [processRecord, parsePayloadFinalize, hsn, hdate, hport, htype,
    alarmEvents, statusEvents, reservoirEvents, primeEvents]

/-- C10, witness: basal-slot bytes `[2, 1]` (value 258) are rendered as
`"0258"` for a glucose record, independently of the event value byte. -/
theorem parsePayload_bg_reads_basal_slot_witness :
    (parsePayload [1, 0, 0, 0, 65, 66, 67, 68, 69, 70, 21, 3, 5, 10, 20, 30,
        90, 80, 2, 1, 0, 0, 7, 0, 3, 0, 1, 9] 0).toOption.map
      (fun r => r.BloodGlucoses.map (fun x => x.BloodGlucose))
      = some [some (formatString (Nat.repr 258) 4)]
    ∧ formatString (Nat.repr 258) 4 = "0258" := by
  have h := parsePayload_bg_reads_basal_slot
    [1, 0, 0, 0, 65, 66, 67, 68, 69, 70, 21, 3, 5, 10, 20, 30,
      90, 80, 2, 1, 0, 0, 7, 0, 3, 0, 1, 9] 0
    (parsePayloadFinalize (processRecord 0 {}
      [1, 0, 0, 0, 65, 66, 67, 68, 69, 70, 21, 3, 5, 10, 20, 30,
        90, 80, 2, 1, 0, 0, 7, 0, 3, 0, 1, 9]))
    (by decide) (by decide) (by decide) (by decide) (by decide)
    (parsePayload_single _ 0 (by decide))
  constructor
  · rw [parsePayload_single _ 0 (by decide)]
    rw [Except.toOption, Option.map]
    rw [h.1]
    decide
  · decide

/-- C1 (amended). A non-sentinel record whose timestamp is strictly before
the upload boundary contributes no blood-glucose and no bolus entry;
when its event port is not 3 it contributes exactly one carry-forward
entry to `lastBasals` (whose most recent element the epilogue also
prepends to the basal output), and otherwise none; the alarm, status,
reservoir-change and prime pushes, however, happen before the boundary
test and are not suppressed for such a record. -/
theorem parsePayload_preBoundary_carry_only (p : List Nat) (lu : Int) (res : InComeRes)
    (hlen : p.length = 28) (hsn : snOf p ≠ sentinelSN)
    (hdate : dateValueDT (dtOf p) < lu)
    (hok : parsePayload p lu = .ok res) :
    res.BloodGlucoses = [] ∧ res.BolusRates = []
    ∧ res.lastBasals.length = (if eventPortOf p = 3 then 0 else 1)
    ∧ res.BasalRates.length = (if eventPortOf p = 3 then 0 else 1) := by
  rw [parsePayload_single p lu hlen] at hok
  have hX := Except.ok.inj hok
  subst hX
  by_cases hport : eventPortOf p = 3
  · simp [processRecord, parsePayloadFinalize, hsn, hdate, hport]
  · simp [processRecord, parsePayloadFinalize, hsn, hdate, hport, sortByTT, insertByTT]

/-- C1, witness: a pre-boundary port-3 record leaves every output list
empty (the port-3 branch contributes no carry-forward entry). -/
theorem parsePayload_preBoundary_carry_only_witness :
    (({} : InComeRes).BloodGlucoses = [] ∧ ({} : InComeRes).BolusRates = []
    ∧ ({} : InComeRes).lastBasals.length
        = (if eventPortOf [1, 0, 0, 0, 65, 66, 67, 68, 69, 70, 21, 3, 5, 10, 20, 30,
            90, 80, 0, 0, 0, 0, 7, 0, 3, 5, 1, 0] = 3 then 0 else 1)
    ∧ ({} : InComeRes).BasalRates.length
        = (if eventPortOf [1, 0, 0, 0, 65, 66, 67, 68, 69, 70, 21, 3, 5, 10, 20, 30,
            90, 80, 0, 0, 0, 0, 7, 0, 3, 5, 1, 0] = 3 then 0 else 1)) :=
  parsePayload_preBoundary_carry_only
    [1, 0, 0, 0, 65, 66, 67, 68, 69, 70, 21, 3, 5, 10, 20, 30,
      90, 80, 0, 0, 0, 0, 7, 0, 3, 5, 1, 0] 2000000000000 {}
    (by decide) (by decide) (by decide) (by decide)

/-- C1, counterexample to the claim as stated: a low-insulin record
(port 4, type 1, urgency 1) dated strictly before the boundary still
emits a classified alarm event — the alarm push precedes the boundary
test — while also contributing its carry-forward entry. -/
theorem parsePayload_preBoundary_emits_alarm :
    (parsePayload [1, 0, 0, 0, 65, 66, 67, 68, 69, 70, 21, 3, 5, 10, 20, 30,
        90, 80, 0, 0, 0, 0, 7, 0, 4, 1, 1, 0] 2000000000000).toOption.map
      (fun r => (r.alarm, r.lastBasals.length))
      = some ([⟨7, "low_insulin", ⟨2021, 3, 5, 10, 20, 30⟩⟩], 1) := by
  decide

/-- C6 (amended). For a non-negative computed amount `x`, `buildValue`
first truncates `x` to two decimal places (via `formatDecimal`) and
then rounds the result up to the next multiple of 0.025 units: the
delivered amount is `⌈(trunc2 x) * 40⌉ / 40`, not a round-to-nearest. -/
theorem buildValue_truncates_then_rounds_up (x : ℚ) (hx : 0 ≤ x) :
    buildValue x = (⌈((⌊x * 100⌋ : ℚ) / 100) * 40⌉ : ℚ) / 40 := by
  have hfd : formatDecimal x = ((⌊x * 100⌋ : ℚ)) / 100 := by
    rw [formatDecimal, qtrunc, if_pos (by positivity), qfloor_eq_floor]
  have hre : ((⌊x * 100⌋ : ℚ)) / 100 * 40 = ((⌊x * 100⌋ : ℚ)) / 100 * 1000 / 25 := by
    ring
  rw [hre]
  simp only [buildValue, hfd, qfloor_eq_floor]
  set res := ((⌊x * 100⌋ : ℚ)) / 100 * 1000 / 25 with hres
  by_cases hc : (⌊res⌋ : ℚ) < res
  · rw [if_pos hc]
    have hceil : ⌈res⌉ = ⌊res⌋ + 1 := by
      have h1 : ⌈res⌉ ≤ ⌊res⌋ + 1 := by
        apply Int.ceil_le.mpr
        push_cast
        exact (Int.lt_floor_add_one res).le
      have h2 : ⌊res⌋ < ⌈res⌉ := Int.lt_ceil.mpr hc
      omega
    rw [hceil]
    push_cast
    ring
  · rw [if_neg hc]
    have heq : (⌊res⌋ : ℚ) = res := le_antisymm (Int.floor_le res) (not_lt.mp hc)
    have hceil : ⌈res⌉ = ⌊res⌋ := by
      rw [← heq]
      exact Int.ceil_intCast ⌊res⌋
    rw [hceil]
    push_cast
    ring

/-- C6, witness: the rule applied at `x = 0.31` — truncation keeps 0.31,
and the upward step lands on 0.325. -/
theorem buildValue_truncates_then_rounds_up_witness :
    (0 : ℚ) ≤ 31 / 100
    ∧ buildValue ((31 : ℚ) / 100)
        = (⌈((⌊(31 : ℚ) / 100 * 100⌋ : ℚ) / 100) * 40⌉ : ℚ) / 40 :=
  ⟨by norm_num, buildValue_truncates_then_rounds_up ((31 : ℚ) / 100) (by norm_num)⟩

/-- C6, counterexample to the claim as stated: at `x = 0.31` the nearest
multiple of 0.025 is 0.300 (0.31 is below the tie point 0.3125), yet
`buildValue` delivers 0.325 — the quantization is an upward step after
truncation, not round-to-nearest with ties up. -/
theorem buildValue_not_round_to_nearest :
    buildValue ((31 : ℚ) / 100) = 13 / 40
    ∧ quantizeNearestHalfUp ((31 : ℚ) / 100) = 3 / 10
    ∧ buildValue ((31 : ℚ) / 100) ≠ quantizeNearestHalfUp ((31 : ℚ) / 100) := by
  have h1 : buildValue ((31 : ℚ) / 100) = 13 / 40 := by
    norm_num [buildValue, formatDecimal, qtrunc, qfloor]
  have h2 : quantizeNearestHalfUp ((31 : ℚ) / 100) = 3 / 10 := by
    norm_num [quantizeNearestHalfUp, qfloor]
  refine ⟨h1, h2, ?_⟩
  rw [h1, h2]
  norm_num

theorem buildBolusGo_no_terminator (l : List BolusSample) :
    ∀ itemRes, (∀ b, b ∈ l → b.BolusRate ≠ "0") → buildBolusGo itemRes l = [] := by
  induction l with
  | nil => intro itemRes h; rfl
  | cons b rest ih =>
    intro itemRes h
    have hb : b.BolusRate ≠ "0" := h b (by simp)
    have hrest : ∀ x, x ∈ rest → x.BolusRate ≠ "0" := fun x hx => h x (by simp [hx])
    by_cases hi : itemRes.isEmpty
    · simp [buildBolusGo, hi, ih _ hrest]
    · simp [buildBolusGo, hi, hb, ih _ hrest]

/-- C7 (amended). A run `['000500'(t0), '003000'(t1), '000000'(t2)]`-shaped
driver-encoded bolus run — both non-zero rate strings parsing into
(0, 12800], the terminator parsing to 0 but (being zero-padded) not
equal to the one-character string `'0'` — is classified `square` by
`checkBolus`, yet `buildBolus` emits no episode at all: its terminator
test compares the stored rate string with `'0'` and never matches the
padded zero. `buildBolusSquare` itself, applied to such a buffered run,
emits one Square episode per sample whose rate string differs from
`'0'`: one per non-zero sample, with the amount
`buildValue(parseInt(rate) × 0.00625 × gapSeconds / 3600)` over its own
gap and that gap as duration, plus a degenerate amount-0, duration-0
episode for the padded terminator — never a single episode with the
summed amount and duration `t2 − t0`. -/
theorem buildBolus_squareRun_driver_encoding (s0 s1 sz : String) (t0 t1 t2 : Int)
    (i0 i1 i2 : Nat)
    (h0 : 0 < parseIntNat s0) (h0b : parseIntNat s0 ≤ 12800)
    (h1 : 0 < parseIntNat s1) (h1b : parseIntNat s1 ≤ 12800)
    (hz : parseIntNat sz = 0) (hs0 : s0 ≠ "0") (hs1 : s1 ≠ "0") (hsz : sz ≠ "0") :
    checkBolus [⟨s0, t0, i0⟩, ⟨s1, t1, i1⟩, ⟨sz, t2, i2⟩] = "square"
    ∧ buildBolus [⟨s0, t0, i0⟩, ⟨s1, t1, i1⟩, ⟨sz, t2, i2⟩] = []
    ∧ buildBolusSquare [⟨s0, t0, i0⟩, ⟨s1, t1, i1⟩, ⟨sz, t2, i2⟩]
      = [Episode.square (buildValue (bolusAmount s0 t0 t1)) (t1 - t0) t0 i0,
         Episode.square (buildValue (bolusAmount s1 t1 t2)) (t2 - t1) t1 i1,
         Episode.square 0 0 t2 i2] := by
  have hn0 : ¬(12800 < parseIntNat s0) := by omega
  have hn1 : ¬(12800 < parseIntNat s1) := by omega
  refine ⟨?_, ?_, ?_⟩
  · simp [checkBolus, hn0, hn1, h0, h0b, hz]
  · exact buildBolusGo_no_terminator _ []
      (by intro b hb; simp at hb; rcases hb with h | h | h <;> simp [h, hs0, hs1, hsz])
  · have hbz : buildValue (bolusAmount sz t2 t2) = 0 := by
      have hz0 : bolusAmount sz t2 t2 = 0 := by simp [bolusAmount, hz]
      rw [hz0]
      norm_num [buildValue, formatDecimal, qtrunc, qfloor]
    simp [buildBolusSquare, hs0, hs1, hsz, hbz]

/-- C7, witness: the claim's example run in the driver's encoding
(`"000500"`, `"003000"`, `"000000"`). -/
theorem buildBolus_squareRun_driver_encoding_witness :
    checkBolus [⟨"000500", 0, 1⟩, ⟨"003000", 300000, 2⟩, ⟨"000000", 600000, 3⟩] = "square"
    ∧ buildBolus [⟨"000500", 0, 1⟩, ⟨"003000", 300000, 2⟩, ⟨"000000", 600000, 3⟩] = []
    ∧ buildBolusSquare [⟨"000500", 0, 1⟩, ⟨"003000", 300000, 2⟩, ⟨"000000", 600000, 3⟩]
      = [Episode.square (buildValue (bolusAmount "000500" 0 300000)) (300000 - 0) 0 1,
         Episode.square (buildValue (bolusAmount "003000" 300000 600000))
           (600000 - 300000) 300000 2,
         Episode.square 0 0 600000 3] :=
  buildBolus_squareRun_driver_encoding "000500" "003000" "000000" 0 300000 600000 1 2 3
    (by decide) (by decide) (by decide) (by decide) (by decide) (by decide) (by decide)
    (by decide)

/-- C7, counterexample to the claim as stated: the run
`[500(t0), 3000(t1), 0(t2)]`, as the driver encodes it, is classified
`square` but yields zero Square episodes, not exactly one — the
grouping loop's terminator test `== '0'` never matches the zero-padded
`"000000"`, so the buffered run is never emitted. -/
theorem buildBolus_squareRun_never_terminates :
    checkBolus [⟨"000500", 0, 1⟩, ⟨"003000", 300000, 2⟩, ⟨"000000", 600000, 3⟩] = "square"
    ∧ buildBolus [⟨"000500", 0, 1⟩, ⟨"003000", 300000, 2⟩, ⟨"000000", 600000, 3⟩] = [] := by
  decide

/-- C5 (amended). For every driver-encoded run (no sample's rate string is
the one-character string `'0'`), `buildBolus` emits no episode at all —
in particular no DualSquare episode for a buffered run containing both
a sample parsing above 12800 and one parsing in (0, 12800] — because
the terminator test compares the stored zero-padded string with `'0'`
and never fires. For the buffered run
`[s0 > 12800, s1 = 12800, 0 < s2 < 12800, padded zero]`, `checkBolus`
still classifies it dual, and `buildBolusDualSquare` applied to it
emits exactly one DualSquare episode whose normal component is `s0`'s
amount (and whose time and index come from `s0`), whose extended
component and duration come only from `s2` — the sample parsing to
exactly 12800 contributes to neither component (the builder tests
`< 12800`, not `≤ 12800`), and the padded zero terminator contributes
a zero amount and zero duration. -/
theorem buildBolus_dualRun_driver_encoding (run : List BolusSample)
    (hall : ∀ b, b ∈ run → b.BolusRate ≠ "0")
    (s0 s1 s2 sz : String) (t0 t1 t2 t3 : Int) (i0 i1 i2 i3 : Nat)
    (ha : 12800 < parseIntNat s0) (hmid : parseIntNat s1 = 12800)
    (hb0 : 0 < parseIntNat s2) (hb : parseIntNat s2 < 12800) (hz : parseIntNat sz = 0)
    (hs0 : s0 ≠ "0") (hs1 : s1 ≠ "0") (hs2 : s2 ≠ "0") (hsz : sz ≠ "0") :
    buildBolus run = []
    ∧ checkBolus [⟨s0, t0, i0⟩, ⟨s1, t1, i1⟩, ⟨s2, t2, i2⟩, ⟨sz, t3, i3⟩] = "dulSquare"
    ∧ buildBolusDualSquare [⟨s0, t0, i0⟩, ⟨s1, t1, i1⟩, ⟨s2, t2, i2⟩, ⟨sz, t3, i3⟩]
      = [Episode.dual (buildValue (bolusAmount s0 t0 t1)) (buildValue (bolusAmount s2 t2 t3))
          (t3 - t2) t0 i0] := by
  have hna : ¬(parseIntNat s0 < 12800) := by omega
  have hnb : ¬(12800 < parseIntNat s2) := by omega
  refine ⟨buildBolusGo_no_terminator run [] hall, ?_, ?_⟩
  · simp [checkBolus, ha, hmid, hb0, hb, hz, hnb]
  · simp [buildBolusDualSquare, buildDualGo, bolusAmount, ha, hna, hmid, hnb, hb, hb0, hz,
      hs0, hs1, hs2, hsz]

/-- C5, witness: the mixed run
`["020000"(t0), "012800"(t1), "000500"(t2), "000000"(t3)]` in the
driver's encoding, used both as the never-terminating `buildBolus`
input and as the buffered run fed to `buildBolusDualSquare`. -/
theorem buildBolus_dualRun_driver_encoding_witness :
    buildBolus [⟨"020000", 0, 1⟩, ⟨"012800", 300000, 2⟩, ⟨"000500", 600000, 3⟩,
      ⟨"000000", 900000, 4⟩] = []
    ∧ checkBolus [⟨"020000", 0, 1⟩, ⟨"012800", 300000, 2⟩, ⟨"000500", 600000, 3⟩,
        ⟨"000000", 900000, 4⟩] = "dulSquare"
    ∧ buildBolusDualSquare [⟨"020000", 0, 1⟩, ⟨"012800", 300000, 2⟩, ⟨"000500", 600000, 3⟩,
        ⟨"000000", 900000, 4⟩]
      = [Episode.dual (buildValue (bolusAmount "020000" 0 300000))
          (buildValue (bolusAmount "000500" 600000 900000)) (900000 - 600000) 0 1] :=
  buildBolus_dualRun_driver_encoding
    [⟨"020000", 0, 1⟩, ⟨"012800", 300000, 2⟩, ⟨"000500", 600000, 3⟩, ⟨"000000", 900000, 4⟩]
    (by decide) "020000" "012800" "000500" "000000" 0 300000 600000 900000 1 2 3 4
    (by decide) (by decide) (by decide) (by decide) (by decide) (by decide) (by decide)
    (by decide) (by decide)

/-- C5, counterexample to the claim as stated: the driver-encoded run
`["020000"(t0), "012800"(t1), "000000"(t2)]` contains a sample above
12800 and a square-bearing sample (12800 itself), so per the claim
exactly one DualSquare episode should be emitted — but `buildBolus`
emits none: the zero-padded terminator never matches the `== '0'`
test, so the run is never classified and emitted. -/
theorem buildBolus_dualRun_never_terminates :
    checkBolus [⟨"020000", 0, 1⟩, ⟨"012800", 300000, 2⟩, ⟨"000000", 600000, 3⟩]
      = "dulSquare"
    ∧ buildBolus [⟨"020000", 0, 1⟩, ⟨"012800", 300000, 2⟩, ⟨"000000", 600000, 3⟩] = [] := by
  decide

theorem getCommand_shape (c l0 l1 l2 l3 : Nat) (tail : List Nat)
    (h1 : ¬(c = 43 ∧ l0 = 43)) (h2 : ¬(l0 = 43 ∧ l1 = 43)) (h3 : ¬(l1 = 43 ∧ l2 = 43))
    (h4 : ¬(l2 = 43 ∧ l3 = 43)) (h5 : l3 ≠ 43) :
    getCommand (43 :: 43 :: 5 :: 1 :: 2 :: c :: l0 :: l1 :: l2 :: l3 :: 43 :: 43 :: tail)
      = [43, 43, 5, 1, 2, c, l0, l1, l2, l3, 43, 43] := by
  have e1 : findPairAux (43 :: 43 :: 5 :: 1 :: 2 :: c :: l0 :: l1 :: l2 :: l3 :: 43 :: 43 :: tail) 0
      = some 0 := findPairAux_cons_pair _ 0
  have e2 : findPairAux (5 :: 1 :: 2 :: c :: l0 :: l1 :: l2 :: l3 :: 43 :: 43 :: tail) 2
      = some 10 := by
    rw [findPairAux_cons_of_not_pair 5 1 _ 2 (by omega),
        findPairAux_cons_of_not_pair 1 2 _ 3 (by omega),
        findPairAux_cons_of_not_pair 2 c _ 4 (by omega),
        findPairAux_cons_of_not_pair c l0 _ 5 h1,
        findPairAux_cons_of_not_pair l0 l1 _ 6 h2,
        findPairAux_cons_of_not_pair l1 l2 _ 7 h3,
        findPairAux_cons_of_not_pair l2 l3 _ 8 h4,
        findPairAux_cons_of_not_pair l3 43 _ 9 (fun hp => h5 hp.1)]
    exact findPairAux_cons_pair _ 10
  rw [getCommand, e1]
  show (match findPairAux (5 :: 1 :: 2 :: c :: l0 :: l1 :: l2 :: l3 :: 43 :: 43 :: tail) 2 with
    | none => ([] : List Nat)
    | some e =>
      ((43 :: 43 :: 5 :: 1 :: 2 :: c :: l0 :: l1 :: l2 :: l3 :: 43 :: 43 :: tail).drop 0).take
        (e + 2 - 0)) = [43, 43, 5, 1, 2, c, l0, l1, l2, l3, 43, 43]
  rw [e2]
  rfl

theorem buildPacket_shape (P : List Nat) :
    buildPacket P
      = 43 :: 43 :: 5 :: 1 :: 2
        :: cRC8 [5, 1, 2, (P ++ md5 P).length % 256, (P ++ md5 P).length / 256 % 256,
            (P ++ md5 P).length / 65536 % 256, (P ++ md5 P).length / 16777216 % 256]
        :: (P ++ md5 P).length % 256 :: (P ++ md5 P).length / 256 % 256
        :: (P ++ md5 P).length / 65536 % 256 :: (P ++ md5 P).length / 16777216 % 256
        :: 43 :: 43 :: (P ++ md5 P) := by
  simp only [buildPacket, packFrame, bytesOfWord]
  rfl

/-- C2 (amended). For every payload whose framed header is clean — no two
adjacent bytes among {CRC-8, the four little-endian length bytes, the
closing marker} spell the `0x2b 0x2b` marker, and the declared data
length fits a signed 32-bit read — decoding the built packet succeeds:
the frame is extracted, the header CRC-8 (computed over the seven body
bytes with the checksum slot excluded) and the digest both verify, and
exactly the original payload bytes are recovered. Without the
cleanliness condition the unescaped marker scan can truncate the frame
(see the counterexample). -/
theorem parsePacket_buildPacket_roundtrip (P : List Nat) (h : headerClean P) :
    parsePacketPayload (buildPacket P) = .ok P := by
  obtain ⟨h1, h2, h3, h4, h5, h6⟩ := h
  set L := P.length + 16 with hL
  set l0 := L % 256 with hl0
  set l1 := L / 256 % 256 with hl1
  set l2 := L / 65536 % 256 with hl2
  set l3 := L / 16777216 % 256 with hl3
  set C := cRC8 [5, 1, 2, l0, l1, l2, l3] with hC
  have hdlen : (P ++ md5 P).length = L := by
    rw [hL]
    simp [List.length_append, md5_length]
  have hshape : buildPacket P
      = 43 :: 43 :: 5 :: 1 :: 2 :: C :: l0 :: l1 :: l2 :: l3 :: 43 :: 43 :: (P ++ md5 P) := by
    simp only [buildPacket, packFrame, bytesOfWord, hdlen]
    rfl
  rw [hshape]
  rw [parsePacketPayload, getCommand_shape _ _ _ _ _ _ h1 h2 h3 h4 h5]
  have hunp : unpackFrame [43, 43, 5, 1, 2, C, l0, l1, l2, l3, 43, 43]
      = [5, 1, 2, C, l0, l1, l2, l3] := rfl
  rw [hunp]
  have hread : readInt32LE (([5, 1, 2, C, l0, l1, l2, l3] : List Nat).drop 4)
      = (L : Int) := by
    have hu : uintLE ((([5, 1, 2, C, l0, l1, l2, l3] : List Nat).drop 4).take 4) = L := by
      simp only [List.drop, List.take, uintLE, hl0, hl1, hl2, hl3]
      omega
    rw [readInt32LE, hu, if_pos (by omega)]
  rw [hread]
  have hdata : packetData (43 :: 43 :: 5 :: 1 :: 2 :: C :: l0 :: l1 :: l2 :: l3
      :: 43 :: 43 :: (P ++ md5 P)) = P ++ md5 P := by
    rw [packetData, getCommand_shape _ _ _ _ _ _ h1 h2 h3 h4 h5, hunp, hread]
    rw [Int.toNat_natCast]
    show (P ++ md5 P).take L = P ++ md5 P
    rw [← hdlen, List.take_length]
  rw [hdata]
  have hsub : (P ++ md5 P).length - 16 = P.length := by
    rw [hdlen, hL]
    omega
  rw [hsub, List.take_left, List.drop_left]
  rw [if_neg (by simp)]
  rw [if_neg (fun hh => hh rfl)]
  rw [if_neg ?hlen]
  case hlen =>
    intro hlt
    have hbl : (43 :: 43 :: 5 :: 1 :: 2 :: C :: l0 :: l1 :: l2 :: l3
        :: 43 :: 43 :: (P ++ md5 P)).length = 12 + L := by
      simp [hdlen]
      omega
    rw [hbl] at hlt
    have h12 : (([43, 43, 5, 1, 2, C, l0, l1, l2, l3, 43, 43] : List Nat).length : Int)
        = 12 := by rfl
    rw [h12] at hlt
    push_cast at hlt
    omega
  rw [if_neg (fun hh => hh rfl)]

/-- C2, witness: the empty payload (declared data length 16, a clean
header) round-trips. -/
theorem parsePacket_buildPacket_roundtrip_witness :
    headerClean [] ∧ parsePacketPayload (buildPacket []) = .ok [] :=
  ⟨by decide, parsePacket_buildPacket_roundtrip [] (by decide)⟩

/-- C2, counterexample to the claim as stated: a payload of 11035 bytes
declares data length 11051 = 0x2B2B, whose two low little-endian length
bytes spell the frame marker; `getCommand` takes them for the closing
marker, the extracted frame is 8 bytes long, and `parsePacket` gives up
(`return false`) instead of recovering the payload — the round-trip
does not hold for every payload. -/
theorem parsePacket_buildPacket_fails_on_marker_length :
    parsePacketPayload (buildPacket (List.replicate 11035 0)) = .incomplete
    ∧ PacketResult.incomplete ≠ .ok (List.replicate 11035 0) := by
  constructor
  · have hlen : ((List.replicate 11035 (0 : Nat)) ++ md5 (List.replicate 11035 0)).length
        = 11051 := by
      simp only [List.length_append, md5_length, List.length_replicate]
    rw [buildPacket_shape, hlen]
    have e0 : (11051 : Nat) % 256 = 43 := by norm_num
    have e1 : (11051 : Nat) / 256 % 256 = 43 := by norm_num
    have ee2 : (11051 : Nat) / 65536 % 256 = 0 := by norm_num
    have ee3 : (11051 : Nat) / 16777216 % 256 = 0 := by norm_num
    have hcrc : cRC8 [5, 1, 2, 43, 43, 0, 0] = 172 := by decide
    simp only [e0, e1, ee2, ee3, hcrc]
    have epair : findPairAux (5 :: 1 :: 2 :: 172 :: 43 :: 43 :: 0 :: 0 :: 43 :: 43
        :: ((List.replicate 11035 (0 : Nat)) ++ md5 (List.replicate 11035 0))) 2
        = some 6 := by
      rw [findPairAux_cons_of_not_pair 5 1 _ 2 (by omega),
          findPairAux_cons_of_not_pair 1 2 _ 3 (by omega),
          findPairAux_cons_of_not_pair 2 172 _ 4 (by omega),
          findPairAux_cons_of_not_pair 172 43 _ 5 (by omega)]
      exact findPairAux_cons_pair _ 6
    have hcmd : getCommand (43 :: 43 :: 5 :: 1 :: 2 :: 172 :: 43 :: 43 :: 0 :: 0
        :: 43 :: 43 :: ((List.replicate 11035 (0 : Nat)) ++ md5 (List.replicate 11035 0)))
        = [43, 43, 5, 1, 2, 172, 43, 43] := by
      rw [getCommand, findPairAux_cons_pair _ 0]
      show (match findPairAux (5 :: 1 :: 2 :: 172 :: 43 :: 43 :: 0 :: 0 :: 43 :: 43
          :: ((List.replicate 11035 (0 : Nat)) ++ md5 (List.replicate 11035 0))) 2 with
        | none => ([] : List Nat)
        | some e =>
          ((43 :: 43 :: 5 :: 1 :: 2 :: 172 :: 43 :: 43 :: 0 :: 0 :: 43 :: 43
            :: ((List.replicate 11035 (0 : Nat)) ++ md5 (List.replicate 11035 0))).drop 0).take
            (e + 2 - 0)) = [43, 43, 5, 1, 2, 172, 43, 43]
      rw [epair]
      rfl
    rw [parsePacketPayload, hcmd]
    rw [if_pos (by norm_num)]
  · decide
